import Mathlib

/-!
Verification development for the Asana integration module of this repository
(`openhands/integrations/asana/`).  The Python sources are shallowly embedded:
pure functions become Lean functions, stateful handlers become explicit state
passing, and the nondeterminism of Python `set.pop` is made explicit through an
eviction-policy parameter.  External collaborators (the Asana REST client, the
conversation runtime, the settings store, the external markdown libraries) are
abstracted as environment fields; everything that the repository itself
computes is translated directly from the source.
-/

namespace Asana

/-! ## Webhook events and the deduplication state machine
    (from `asana_webhooks.py`) -/

/-- Embedded `AsanaResource` (from `asana_models.py`): only the fields the
webhook dispatcher reads. -/
structure AsanaResourceM where
  gid : String
  resource_type : String
deriving DecidableEq, Repr

/-- Embedded `WebhookEvent` (from `asana_models.py`), restricted to the fields
that `process_webhook_event` and its two handlers read.  The `created_at`
timestamp is kept as the string that the Python f-string interpolates into the
dedup key. -/
structure WebhookEventM where
  action : String
  resource : AsanaResourceM
  parentGid : Option String
  created_at : String
deriving DecidableEq, Repr

/-- `_MAX_PROCESSED_EVENTS = 1000` from `asana_webhooks.py`. -/
def MAX_PROCESSED_EVENTS : Nat := 1000

/-- Number of entries kept after an eviction:
`int(_MAX_PROCESSED_EVENTS * 0.9)` evaluates to `900` in Python. -/
def EVICTION_KEEP : Nat := 900

/-- Result of one background processing step: the new `_processed_events` set
(represented as a duplicate-free list) and whether the reconciler entry point
(`process_task_assignment` or `process_story_mention`) was invoked. -/
structure StepResult where
  processed : List String
  invoked : Bool
deriving DecidableEq, Repr

/-- The dedup key derived by the handlers:
`f'task-{task_gid}-{event.created_at}'` resp.
`f'story-{story_gid}-{event.created_at}'`. -/
def dedupKey (e : WebhookEventM) : String :=
  (if e.resource.resource_type = "task" then "task-" else "story-")
    ++ e.resource.gid ++ "-" ++ e.created_at

/-- Embedded `process_task_event`.  `evict s n` models popping `n` arbitrary
elements from the set `s` (Python `for _ in range(to_remove): _processed_events.pop()`);
any function removing `n` members is an admissible instantiation. -/
def process_task_event (evict : List String → Nat → List String)
    (s : List String) (e : WebhookEventM) : StepResult :=
  if e.resource.resource_type ≠ "task" then ⟨s, false⟩
  else if e.action ≠ "changed" then ⟨s, false⟩
  else
    let key := "task-" ++ e.resource.gid ++ "-" ++ e.created_at
    if key ∈ s then ⟨s, false⟩
    else
      let s1 := key :: s
      let s2 := if s1.length > MAX_PROCESSED_EVENTS
                then evict s1 (s1.length - EVICTION_KEEP)
                else s1
      ⟨s2, true⟩

/-- Embedded `process_story_event`.  Faithful to the source: the story path
inserts into `_processed_events` but performs no eviction at all. -/
def process_story_event (s : List String) (e : WebhookEventM) : StepResult :=
  if e.action ≠ "added" then ⟨s, false⟩
  else
    let key := "story-" ++ e.resource.gid ++ "-" ++ e.created_at
    if key ∈ s then ⟨s, false⟩
    else ⟨key :: s, true⟩

/-- Embedded `process_webhook_event`: route by `resource.resource_type`. -/
def process_webhook_event (evict : List String → Nat → List String)
    (s : List String) (e : WebhookEventM) : StepResult :=
  if e.resource.resource_type = "task" then process_task_event evict s e
  else if e.resource.resource_type = "story" then process_story_event s e
  else ⟨s, false⟩

/-- Sequential background processing of a list of events, as performed by the
background task queue (one `process_webhook_event_safe` per event). -/
def runEvents (evict : List String → Nat → List String)
    (s : List String) (es : List WebhookEventM) : List String :=
  es.foldl (fun st e => (process_webhook_event evict st e).processed) s

/-- A concrete admissible eviction order: pop the `n` most recently inserted
entries (the model inserts at the head). -/
def evictDrop (s : List String) (n : Nat) : List String := s.drop n

theorem evictDrop_subset (s : List String) (n : Nat) : evictDrop s n ⊆ s :=
  List.drop_subset n s

theorem evictDrop_length (s : List String) (n : Nat) :
    (evictDrop s n).length = s.length - n :=
  List.length_drop n s

/-! ### Concrete event families used to exercise the dedup set -/

/-- Pairwise-distinct gids (distinct lengths force injectivity). -/
def gidN (i : Nat) : String := String.mk (List.replicate i 'a')

/-- The i-th story webhook event of a flood of distinct comments. -/
def storyEventN (i : Nat) : WebhookEventM :=
  ⟨"added", ⟨gidN i, "story"⟩, none, "T"⟩

/-- Dedup key of `storyEventN i`. -/
def storyKeyN (i : Nat) : String := "story-" ++ gidN i ++ "-" ++ "T"

/-- A flood of `n` distinct story events. -/
def storyFlood (n : Nat) : List WebhookEventM := (List.range n).map storyEventN

theorem storyKeyN_length (i : Nat) : (storyKeyN i).length = i + 8 := by
  have h : (gidN i).length = i := by
    simp [gidN, String.length]
  have h1 : ("story-" : String).length = 6 := rfl
  have h2 : ("-" : String).length = 1 := rfl
  have h3 : ("T" : String).length = 1 := rfl
  simp [storyKeyN, String.length_append, h, h1, h2, h3]
  omega

theorem storyKeyN_injective : Function.Injective storyKeyN := by
  intro i j h
  have := congrArg String.length h
  rw [storyKeyN_length, storyKeyN_length] at this
  omega

/-- Running a flood of `n` distinct story events from the empty set leaves all
`n` keys in the set: the story path never evicts. -/
theorem runEvents_storyFlood (evict : List String → Nat → List String) (n : Nat) :
    runEvents evict [] (storyFlood n) = ((List.range n).map storyKeyN).reverse := by
  induction n with
  | zero => simp [runEvents, storyFlood]
  | succ n ih =>
    have hsplit : storyFlood (n + 1) = storyFlood n ++ [storyEventN n] := by
      simp [storyFlood, List.range_succ]
    have hmem : storyKeyN n ∉ ((List.range n).map storyKeyN).reverse := by
      intro hmem
      rw [List.mem_reverse, List.mem_map] at hmem
      obtain ⟨i, hi, hk⟩ := hmem
      have := storyKeyN_injective hk
      rw [List.mem_range] at hi
      omega
    have hkey : "story-" ++ (storyEventN n).resource.gid ++ "-" ++
        (storyEventN n).created_at = storyKeyN n := by
      simp [storyEventN, storyKeyN]
    rw [hsplit]
    unfold runEvents at ih ⊢
    rw [List.foldl_append, ih]
    simp only [List.foldl_cons, List.foldl_nil]
    rw [process_webhook_event, if_neg (by simp [storyEventN])]
    rw [if_pos (by simp [storyEventN])]
    rw [process_story_event, if_neg (by simp [storyEventN])]
    simp only [hkey, if_neg hmem]
    simp [List.range_succ]

theorem runEvents_storyFlood_length (evict : List String → Nat → List String)
    (n : Nat) : (runEvents evict [] (storyFlood n)).length = n := by
  rw [runEvents_storyFlood]
  simp

/-- C2 evaluation: after 1001 completed calls of `process_story_event` (via the
router) for 1001 distinct story events, starting from the empty set, the
processed-events set holds 1001 entries, exceeding `_MAX_PROCESSED_EVENTS`. -/
theorem story_flood_exceeds_max :
    MAX_PROCESSED_EVENTS < (runEvents evictDrop [] (storyFlood 1001)).length := by
  rw [runEvents_storyFlood_length]
  decide

/-! ### Evaluation lemmas for the two dedup handlers -/

theorem router_task (evict : List String → Nat → List String)
    (s : List String) (e : WebhookEventM) (ht : e.resource.resource_type = "task") :
    process_webhook_event evict s e = process_task_event evict s e := by
  rw [process_webhook_event, if_pos ht]

theorem router_story (evict : List String → Nat → List String)
    (s : List String) (e : WebhookEventM) (ht : e.resource.resource_type = "story") :
    process_webhook_event evict s e = process_story_event s e := by
  rw [process_webhook_event, if_neg (by simp [ht]), if_pos ht]

theorem process_task_event_fresh_small (evict : List String → Nat → List String)
    (s : List String) (e : WebhookEventM)
    (ht : e.resource.resource_type = "task") (ha : e.action = "changed")
    (hfresh : ("task-" ++ e.resource.gid ++ "-" ++ e.created_at) ∉ s)
    (hsmall : s.length < MAX_PROCESSED_EVENTS) :
    process_task_event evict s e =
      ⟨("task-" ++ e.resource.gid ++ "-" ++ e.created_at) :: s, true⟩ := by
  rw [process_task_event, if_neg (by simp [ht]), if_neg (by simp [ha])]
  simp only [if_neg hfresh, List.length_cons]
  rw [if_neg (by omega)]

theorem process_task_event_fresh_evict (evict : List String → Nat → List String)
    (s : List String) (e : WebhookEventM)
    (ht : e.resource.resource_type = "task") (ha : e.action = "changed")
    (hfresh : ("task-" ++ e.resource.gid ++ "-" ++ e.created_at) ∉ s)
    (hbig : MAX_PROCESSED_EVENTS ≤ s.length) :
    process_task_event evict s e =
      ⟨evict (("task-" ++ e.resource.gid ++ "-" ++ e.created_at) :: s)
          (s.length + 1 - EVICTION_KEEP), true⟩ := by
  rw [process_task_event, if_neg (by simp [ht]), if_neg (by simp [ha])]
  simp only [if_neg hfresh, List.length_cons]
  rw [if_pos (by omega)]

theorem process_task_event_dup (evict : List String → Nat → List String)
    (s : List String) (e : WebhookEventM)
    (ha : e.action = "changed")
    (hdup : ("task-" ++ e.resource.gid ++ "-" ++ e.created_at) ∈ s) :
    process_task_event evict s e = ⟨s, false⟩ := by
  rw [process_task_event]
  by_cases ht : e.resource.resource_type = "task"
  · rw [if_neg (by simp [ht]), if_neg (by simp [ha])]
    simp only [if_pos hdup]
  · rw [if_pos ht]

theorem process_story_event_fresh (s : List String) (e : WebhookEventM)
    (ha : e.action = "added")
    (hfresh : ("story-" ++ e.resource.gid ++ "-" ++ e.created_at) ∉ s) :
    process_story_event s e =
      ⟨("story-" ++ e.resource.gid ++ "-" ++ e.created_at) :: s, true⟩ := by
  rw [process_story_event, if_neg (by simp [ha])]
  simp only [if_neg hfresh]

theorem process_story_event_dup (s : List String) (e : WebhookEventM)
    (ha : e.action = "added")
    (hdup : ("story-" ++ e.resource.gid ++ "-" ++ e.created_at) ∈ s) :
    process_story_event s e = ⟨s, false⟩ := by
  rw [process_story_event, if_neg (by simp [ha])]
  simp only [if_pos hdup]

/-! ### C1: dedup of a same-key pair -/

/-- C1 (amended): for a pair of webhook events carrying the same dedup key
(a task event with action changed, or a story event with action added), whose
key is not yet tracked, processed back to back, the reconciler entry point is
invoked exactly once — provided that, for a task event, the set held fewer
than `_MAX_PROCESSED_EVENTS` keys when the first copy was processed, so that
its insertion triggers no eviction.  The second processing finds the key in
the set and returns without invoking the reconciler and without changing the
set.  (Without the size proviso the task-path eviction, which pops arbitrary
elements, can remove the just-inserted key; see the counterexample.) -/
theorem dedup_pair_exactly_once (evict : List String → Nat → List String)
    (s : List String) (e : WebhookEventM)
    (hkind : (e.resource.resource_type = "task" ∧ e.action = "changed") ∨
             (e.resource.resource_type = "story" ∧ e.action = "added"))
    (hfresh : dedupKey e ∉ s)
    (hsize : e.resource.resource_type = "task" → s.length < MAX_PROCESSED_EVENTS) :
    (process_webhook_event evict s e).invoked = true ∧
    (process_webhook_event evict (process_webhook_event evict s e).processed e).invoked
      = false ∧
    (process_webhook_event evict (process_webhook_event evict s e).processed e).processed
      = (process_webhook_event evict s e).processed := by
  rcases hkind with ⟨ht, ha⟩ | ⟨ht, ha⟩
  · have hk : dedupKey e = "task-" ++ e.resource.gid ++ "-" ++ e.created_at := by
      simp [dedupKey, ht]
    rw [hk] at hfresh
    rw [router_task evict s e ht,
      process_task_event_fresh_small evict s e ht ha hfresh (hsize ht)]
    rw [router_task evict _ e ht,
      process_task_event_dup evict _ e ha (by simp)]
    exact ⟨rfl, rfl, rfl⟩
  · have hk : dedupKey e = "story-" ++ e.resource.gid ++ "-" ++ e.created_at := by
      simp [dedupKey, ht]
    rw [hk] at hfresh
    rw [router_story evict s e ht, process_story_event_fresh s e ha hfresh]
    rw [router_story evict _ e ht,
      process_story_event_dup _ e ha (by simp)]
    exact ⟨rfl, rfl, rfl⟩

/-- Witness for `dedup_pair_exactly_once` at a concrete story event and the
empty set. -/
theorem dedup_pair_exactly_once_witness :
    ((("g" : String) = "g") ∧
      (process_webhook_event evictDrop [] ⟨"added", ⟨"g", "story"⟩, none, "T"⟩).invoked
        = true) := by
  refine ⟨rfl, ?_⟩
  exact (dedup_pair_exactly_once evictDrop [] ⟨"added", ⟨"g", "story"⟩, none, "T"⟩
    (Or.inr ⟨rfl, rfl⟩) (by decide) (by decide)).1

/-! ### C1 counterexample: eviction at capacity can drop the fresh key -/

/-- A concrete task gid whose dedup key is longer than every key of the story
flood, hence distinct from all of them. -/
def taskGidBig : String := String.mk (List.replicate 2000 'b')

/-- A task assignment-change event for `taskGidBig`. -/
def taskEventBig : WebhookEventM := ⟨"changed", ⟨taskGidBig, "task"⟩, none, "T"⟩

/-- Dedup key of `taskEventBig`. -/
def taskKeyBig : String := "task-" ++ taskGidBig ++ "-" ++ "T"

/-- The processed-events set reached by processing 1000 distinct story events
from the empty set (a reachable state of exactly `_MAX_PROCESSED_EVENTS`
entries). -/
def fullState : List String := runEvents evictDrop [] (storyFlood 1000)

theorem taskKeyBig_length : taskKeyBig.length = 2007 := by
  have hmk : ∀ (l : List Char), (String.mk l).length = l.length := fun _ => rfl
  have h : taskGidBig.length = 2000 := by
    rw [taskGidBig, hmk, List.length_replicate]
  have h1 : ("task-" : String).length = 5 := rfl
  have h2 : ("-" : String).length = 1 := rfl
  have h3 : ("T" : String).length = 1 := rfl
  simp [taskKeyBig, String.length_append, h, h1, h2, h3]

theorem taskKeyBig_not_mem_fullState : taskKeyBig ∉ fullState := by
  intro hmem
  rw [fullState, runEvents_storyFlood, List.mem_reverse, List.mem_map] at hmem
  obtain ⟨i, hi, hk⟩ := hmem
  have := congrArg String.length hk
  rw [storyKeyN_length, taskKeyBig_length] at this
  rw [List.mem_range] at hi
  omega

theorem fullState_length : fullState.length = 1000 :=
  runEvents_storyFlood_length evictDrop 1000

/-- C1 counterexample: the exactly-once claim fails at capacity.  Starting
from the reachable state built by 1000 distinct story events, the same task
event (action changed) processed twice back to back invokes the reconciler
both times: the first processing inserts the key and then evicts 101 entries —
with `evictDrop`, an admissible instantiation of the arbitrary `set.pop`
order, the just-inserted key is among the evicted — so the second processing
does not find the key and invokes the reconciler again. -/
theorem dedup_pair_double_invoke_cex :
    (process_webhook_event evictDrop fullState taskEventBig).invoked = true ∧
    (process_webhook_event evictDrop
        (process_webhook_event evictDrop fullState taskEventBig).processed
        taskEventBig).invoked = true := by
  have ht : taskEventBig.resource.resource_type = "task" := rfl
  have ha : taskEventBig.action = "changed" := rfl
  have hk : ("task-" ++ taskEventBig.resource.gid ++ "-" ++ taskEventBig.created_at)
      = taskKeyBig := rfl
  have h1 : process_webhook_event evictDrop fullState taskEventBig
      = ⟨fullState.drop 100, true⟩ := by
    rw [router_task evictDrop fullState taskEventBig ht,
      process_task_event_fresh_evict evictDrop fullState taskEventBig ht ha
        (by rw [hk]; exact taskKeyBig_not_mem_fullState)
        (by rw [fullState_length]; exact Nat.le_refl _)]
    rw [fullState_length]
    have : (1000 + 1 - EVICTION_KEEP) = 101 := by decide
    rw [this, hk]
    show StepResult.mk ((taskKeyBig :: fullState).drop 101) true = _
    rw [List.drop_succ_cons]
  refine ⟨by rw [h1], ?_⟩
  rw [h1]
  have hfresh2 : ("task-" ++ taskEventBig.resource.gid ++ "-" ++ taskEventBig.created_at)
      ∉ fullState.drop 100 := by
    rw [hk]
    intro hmem
    exact taskKeyBig_not_mem_fullState (List.drop_subset 100 fullState hmem)
  have hlen2 : (fullState.drop 100).length < MAX_PROCESSED_EVENTS := by
    rw [List.length_drop, fullState_length]
    decide
  rw [router_task evictDrop _ taskEventBig ht,
    process_task_event_fresh_small evictDrop _ taskEventBig ht ha hfresh2 hlen2]

/-! ## HMAC-SHA256 and `verify_webhook_signature`
    (`asana_webhooks.py` lines 62-79)

The handler computes `hmac.new(secret.encode('utf-8'), body, hashlib.sha256).hexdigest()`
and compares it to the header value with `hmac.compare_digest`, which for two
hex strings is string equality.  SHA-256 (FIPS 180-4) and HMAC (RFC 2104) are
implemented executably below over byte lists, with 32-bit words as `Nat`
reduced mod `2 ^ 32`. -/

/-- Truncate to a 32-bit word. -/
def w32 (x : Nat) : Nat := x % 4294967296

/-- Right rotation of a 32-bit word. -/
def rotr32 (x n : Nat) : Nat := w32 ((x >>> n) ||| (x <<< (32 - n)))

/-- The SHA-256 round constants (FIPS 180-4, written in decimal). -/
def sha256K : List Nat :=
  [1116352408, 1899447441, 3049323471, 3921009573, 961987163,
   1508970993, 2453635748, 2870763221, 3624381080, 310598401,
   607225278, 1426881987, 1925078388, 2162078206, 2614888103,
   3248222580, 3835390401, 4022224774, 264347078, 604807628,
   770255983, 1249150122, 1555081692, 1996064986, 2554220882,
   2821834349, 2952996808, 3210313671, 3336571891, 3584528711,
   113926993, 338241895, 666307205, 773529912, 1294757372,
   1396182291, 1695183700, 1986661051, 2177026350, 2456956037,
   2730485921, 2820302411, 3259730800, 3345764771, 3516065817,
   3600352804, 4094571909, 275423344, 430227734, 506948616,
   659060556, 883997877, 958139571, 1322822218, 1537002063,
   1747873779, 1955562222, 2024104815, 2227730452, 2361852424,
   2428436474, 2756734187, 3204031479, 3329325298]

/-- The eight 32-bit working variables of SHA-256. -/
structure Hash8 where
  a : Nat
  b : Nat
  c : Nat
  d : Nat
  e : Nat
  f : Nat
  g : Nat
  h : Nat
deriving DecidableEq, Repr

/-- One SHA-256 compression round. -/
def sha256Round (st : Hash8) (k w : Nat) : Hash8 :=
  let S1 := rotr32 st.e 6 ^^^ rotr32 st.e 11 ^^^ rotr32 st.e 25
  let ch := (st.e &&& st.f) ^^^ ((st.e ^^^ 0xffffffff) &&& st.g)
  let temp1 := w32 (st.h + S1 + ch + k + w)
  let S0 := rotr32 st.a 2 ^^^ rotr32 st.a 13 ^^^ rotr32 st.a 22
  let maj := (st.a &&& st.b) ^^^ (st.a &&& st.c) ^^^ (st.b &&& st.c)
  let temp2 := w32 (S0 + maj)
  ⟨w32 (temp1 + temp2), st.a, st.b, st.c, w32 (st.d + temp1), st.e, st.f, st.g⟩

/-- Extend the 16 block words to the 64-word message schedule (runs 48 steps). -/
def sha256Extend : Nat → List Nat → List Nat
  | 0, w => w
  | n + 1, w =>
    let t := w.length
    let x15 := w.getD (t - 15) 0
    let x2 := w.getD (t - 2) 0
    let s0 := rotr32 x15 7 ^^^ rotr32 x15 18 ^^^ (x15 >>> 3)
    let s1 := rotr32 x2 17 ^^^ rotr32 x2 19 ^^^ (x2 >>> 10)
    sha256Extend n (w ++ [w32 (w.getD (t - 16) 0 + s0 + w.getD (t - 7) 0 + s1)])

/-- Compress one 512-bit block (16 words) into the hash value. -/
def sha256Compress (hv : Hash8) (block16 : List Nat) : Hash8 :=
  let ws := sha256Extend 48 block16
  let fin := (sha256K.zip ws).foldl (fun st kw => sha256Round st kw.1 kw.2) hv
  ⟨w32 (hv.a + fin.a), w32 (hv.b + fin.b), w32 (hv.c + fin.c), w32 (hv.d + fin.d),
   w32 (hv.e + fin.e), w32 (hv.f + fin.f), w32 (hv.g + fin.g), w32 (hv.h + fin.h)⟩

/-- Big-endian byte representation of `x` in `n` bytes. -/
def beBytes : Nat → Nat → List Nat
  | 0, _ => []
  | n + 1, x => beBytes n (x / 256) ++ [x % 256]

/-- SHA-256 padding: a 0x80 byte, zeros to 56 mod 64, and the 64-bit
big-endian bit length. -/
def sha256Pad (msg : List Nat) : List Nat :=
  let L := msg.length
  let z := (120 - (L + 1) % 64) % 64
  msg ++ [0x80] ++ List.replicate z 0 ++ beBytes 8 (8 * L)

/-- Group bytes into big-endian 32-bit words. -/
def toWords32 : List Nat → List Nat
  | a :: b :: c :: d :: rest =>
    (a * 16777216 + b * 65536 + c * 256 + d) :: toWords32 rest
  | _ => []

/-- Fold the compression function over `n` 16-word chunks. -/
def sha256Chunks : Nat → Hash8 → List Nat → Hash8
  | 0, hv, _ => hv
  | n + 1, hv, ws => sha256Chunks n (sha256Compress hv (ws.take 16)) (ws.drop 16)

/-- The SHA-256 initial hash value. -/
def sha256H0 : Hash8 :=
  ⟨0x6a09e667, 0xbb67ae85, 0x3c6ef372, 0xa54ff53a,
   0x510e527f, 0x9b05688c, 0x1f83d9ab, 0x5be0cd19⟩

/-- Serialize the hash value to 32 big-endian bytes. -/
def hash8Bytes (hv : Hash8) : List Nat :=
  beBytes 4 hv.a ++ beBytes 4 hv.b ++ beBytes 4 hv.c ++ beBytes 4 hv.d ++
  beBytes 4 hv.e ++ beBytes 4 hv.f ++ beBytes 4 hv.g ++ beBytes 4 hv.h

/-- SHA-256 of a byte list (bytes are `Nat` values below 256). -/
def sha256 (msg : List Nat) : List Nat :=
  let ws := toWords32 (sha256Pad msg)
  hash8Bytes (sha256Chunks (ws.length / 16) sha256H0 ws)

/-- HMAC-SHA256 (RFC 2104): block size 64 bytes. -/
def hmacSha256 (key msg : List Nat) : List Nat :=
  let k0 := if 64 < key.length then sha256 key else key
  let kp := k0 ++ List.replicate (64 - k0.length) 0
  sha256 ((kp.map (fun b => b ^^^ 0x5c)) ++ sha256 ((kp.map (fun b => b ^^^ 0x36)) ++ msg))

/-- Lower-case hex digit. -/
def hexChar (n : Nat) : Char :=
  if n < 10 then Char.ofNat (48 + n) else Char.ofNat (87 + n)

/-- Two lower-case hex digits of a byte. -/
def hexByte (b : Nat) : List Char := [hexChar (b / 16), hexChar (b % 16)]

/-- Lower-case hex string of a byte list (Python `.hexdigest()`). -/
def hexdigest (bs : List Nat) : String := String.mk ((bs.map hexByte).flatten)

/-- UTF-8 encoding of one character. -/
def utf8EncodeChar (c : Char) : List Nat :=
  let n := c.toNat
  if n < 128 then [n]
  else if n < 2048 then [192 ||| (n >>> 6), 128 ||| (n &&& 63)]
  else if n < 65536 then
    [224 ||| (n >>> 12), 128 ||| ((n >>> 6) &&& 63), 128 ||| (n &&& 63)]
  else
    [240 ||| (n >>> 18), 128 ||| ((n >>> 12) &&& 63),
     128 ||| ((n >>> 6) &&& 63), 128 ||| (n &&& 63)]

/-- UTF-8 encoding of a string (Python `str.encode('utf-8')`). -/
def utf8Bytes (s : String) : List Nat := (s.data.map utf8EncodeChar).flatten

/-- Embedded `verify_webhook_signature`: recompute the hex HMAC-SHA256 digest
of the raw body under the secret and compare with `hmac.compare_digest`,
which for two strings decides equality (in constant time, which a pure
function need not model). -/
def verify_webhook_signature (body : List Nat) (signature : String)
    (secret : String) : Bool :=
  hexdigest (hmacSha256 (utf8Bytes secret) body) == signature

set_option maxRecDepth 8192 in
/-- Sanity check of the embedding against RFC 4231 test case 2
(key Jefe): the implementation reproduces the published HMAC-SHA256 value. -/
theorem hmacSha256_rfc4231_case2 :
    hexdigest (hmacSha256 (utf8Bytes "Jefe") (utf8Bytes "what do ya want for nothing?"))
      = "5bdcc146bf60754e6a042426089575c75a003f089d2739839dec58b964ec3843" := by
  decide

/-- C6: `verify_webhook_signature` accepts exactly the signatures equal to the
hex HMAC-SHA256 digest of the body under the secret.  In particular the digest
of a body under secret S verifies under S, and any signature differing from
the digest (a mutated body or a different secret whose digest differs) is
rejected. -/
theorem verify_webhook_signature_iff (body : List Nat) (sig : String)
    (secret : String) :
    verify_webhook_signature body sig secret = true ↔
      sig = hexdigest (hmacSha256 (utf8Bytes secret) body) := by
  rw [verify_webhook_signature, beq_iff_eq, eq_comm]

/-! ## The webhook endpoint (`asana_webhook`, `asana_webhooks.py` lines 82-163) -/

/-- Embedded `WebhookPayload`. -/
structure WebhookPayloadM where
  events : List WebhookEventM
deriving DecidableEq, Repr

/-- One inbound HTTP request to the endpoint.  `parsed` is the outcome of
`await request.json()` plus `WebhookPayload(**payload_data)`; `none` models a
parse or validation failure.  Header fields are `none` when the header is
absent. -/
structure WebhookRequest where
  body : List Nat
  x_hook_secret : Option String
  x_hook_signature : Option String
  parsed : Option WebhookPayloadM

/-- The secret state the handler consults: the in-memory
`webhook_secrets['default']` entry and the settings-store fallback
(`get_webhook_secret_from_settings`, `none` when unavailable). -/
structure WebhookCtx where
  memorySecret : Option String
  settingsSecret : Option String
deriving DecidableEq, Repr

/-- The responses the handler can produce. -/
inductive WebhookResponse where
  | handshakeOk (secret : String)
  | unauthorized (detail : String)
  | badRequest (detail : String)
  | heartbeatOk
  | queuedOk (count : Nat)
deriving DecidableEq, Repr

/-- Python truthiness of an optional header/string value: absent and empty
strings are falsy. -/
def truthy (o : Option String) : Bool := o.getD "" ≠ ""

/-- The secret the delivery branch verifies against:
`webhook_secrets.get('default', '')`, falling back to the settings store when
that is empty. -/
def storedSecret (ctx : WebhookCtx) : String :=
  if ctx.memorySecret.getD "" = "" then ctx.settingsSecret.getD ""
  else ctx.memorySecret.getD ""

/-- The `if x_hook_signature:` block of `asana_webhook`: `some r` models the
`raise HTTPException` paths, `none` means execution continues to the payload
parse. -/
def checkSignature (ctx : WebhookCtx) (req : WebhookRequest) :
    Option WebhookResponse :=
  if truthy req.x_hook_signature then
    if storedSecret ctx = "" then
      some (.unauthorized "No webhook secret configured")
    else if verify_webhook_signature req.body (req.x_hook_signature.getD "")
        (storedSecret ctx) then
      none
    else some (.unauthorized "Invalid signature")
  else none

/-- Embedded `asana_webhook`: handshake echo, optional signature check,
payload parse, heartbeat, and background dispatch.  Returns the response and
the list of events handed to `background_tasks.add_task`.  (The handler also
caches a settings-loaded secret back into memory; that write does not affect
the response or the queue and is not modeled.) -/
def asana_webhook (ctx : WebhookCtx) (req : WebhookRequest) :
    WebhookResponse × List WebhookEventM :=
  if truthy req.x_hook_secret then
    (.handshakeOk (req.x_hook_secret.getD ""), [])
  else
    match checkSignature ctx req with
    | some r => (r, [])
    | none =>
      match req.parsed with
      | none => (.badRequest "Invalid payload", [])
      | some payload =>
        if payload.events = [] then (.heartbeatOk, [])
        else (.queuedOk payload.events.length, payload.events)

theorem beBytes_length (n x : Nat) : (beBytes n x).length = n := by
  induction n generalizing x with
  | zero => rfl
  | succ n ih => simp [beBytes, ih]

theorem sha256_length (msg : List Nat) : (sha256 msg).length = 32 := by
  rw [sha256]
  simp [hash8Bytes, beBytes_length]

theorem hexdigest_ne_empty (bs : List Nat) (h : bs ≠ []) : hexdigest bs ≠ "" := by
  match bs, h with
  | b :: t, _ =>
    rw [hexdigest]
    intro hc
    have : (((b :: t).map hexByte).flatten) = [] := by
      have := congrArg String.data hc
      simpa using this
    simp [hexByte] at this

theorem hmac_hexdigest_ne_empty (key msg : List Nat) :
    hexdigest (hmacSha256 key msg) ≠ "" := by
  apply hexdigest_ne_empty
  intro h
  have := congrArg List.length h
  rw [hmacSha256] at this
  rw [sha256_length] at this
  simp at this

/-- C3: a POST carrying neither an X-Hook-Secret nor an X-Hook-Signature
header is never answered 401; no signature verification happens (the outcome
is independent of every stored secret); the body parse drives the response
(400 on parse failure), and a payload with events is queued exactly as a
delivery carrying a valid signature would be. -/
theorem unsigned_request_processed (ctx ctx' : WebhookCtx) (req : WebhookRequest)
    (hs : req.x_hook_secret = none) (hg : req.x_hook_signature = none) :
    (∀ d, (asana_webhook ctx req).1 ≠ .unauthorized d) ∧
    asana_webhook ctx req = asana_webhook ctx' req ∧
    (req.parsed = none → (asana_webhook ctx req).1 = .badRequest "Invalid payload") ∧
    (∀ payload, req.parsed = some payload → payload.events ≠ [] →
      asana_webhook ctx req = (.queuedOk payload.events.length, payload.events)) ∧
    (∀ secret, secret ≠ "" →
      asana_webhook ⟨some secret, none⟩
        { req with
            x_hook_signature := some (hexdigest (hmacSha256 (utf8Bytes secret) req.body)) }
        = asana_webhook ctx req) := by
  have hbase : ∀ c : WebhookCtx, asana_webhook c req =
      (match req.parsed with
       | none => (.badRequest "Invalid payload", [])
       | some payload =>
         if payload.events = [] then (.heartbeatOk, [])
         else (.queuedOk payload.events.length, payload.events)) := by
    intro c
    rw [asana_webhook, if_neg (by simp [truthy, hs]),
      checkSignature, if_neg (by simp [truthy, hg])]
  have hsigned : ∀ secret, secret ≠ "" →
      asana_webhook ⟨some secret, none⟩
        { req with
            x_hook_signature := some (hexdigest (hmacSha256 (utf8Bytes secret) req.body)) }
        = asana_webhook ctx req := by
    intro secret hsec
    have hstored : storedSecret ⟨some secret, none⟩ = secret := by
      rw [storedSecret]
      simp [hsec]
    have hchk : checkSignature ⟨some secret, none⟩
        { req with
            x_hook_signature := some (hexdigest (hmacSha256 (utf8Bytes secret) req.body)) }
        = none := by
      rw [checkSignature,
        if_pos (by simpa [truthy] using hmac_hexdigest_ne_empty (utf8Bytes secret) req.body),
        if_neg (by rw [hstored]; exact hsec), if_pos]
      rw [hstored]
      rw [show ({ req with
          x_hook_signature := some (hexdigest (hmacSha256 (utf8Bytes secret) req.body))
            } : WebhookRequest).x_hook_signature.getD ""
        = hexdigest (hmacSha256 (utf8Bytes secret) req.body) from rfl]
      rw [verify_webhook_signature_iff]
    rw [asana_webhook, if_neg (by simp [truthy, hs]), hchk, hbase ctx]
  refine ⟨?_, ?_, ?_, ?_, hsigned⟩
  · intro d
    rw [hbase ctx]
    match hp : req.parsed with
    | none => simp
    | some payload =>
      by_cases he : payload.events = [] <;> simp [he]
  · rw [hbase ctx, hbase ctx']
  · intro hp
    rw [hbase ctx, hp]
  · intro payload hp hne
    rw [hbase ctx, hp]
    simp [hne]

/-! ## Text cleanup shared by the formatters
    (`asana_reporter.py`, `asana_service.py`)

Python `re.sub(r'\n{3,}', '\n\n', s)` rewrites every maximal run of three or
more newlines to exactly two, and `str.strip()` removes leading and trailing
whitespace.  Both are implemented below over character lists. -/

/-- The ASCII whitespace characters of the Python `\s` class and `str.strip`
(exotic Unicode whitespace is not modeled; no input in this development uses
it). -/
def isPySpace (c : Char) : Bool :=
  c == ' ' || c == '\t' || c == '\n' || c == '\r' || c == '\x0B' || c == '\x0C'

/-- Emit a pending newline run: runs of three or more become a single blank
line (two newlines). -/
def emitNl (k : Nat) : List Char :=
  if 3 ≤ k then ['\n', '\n'] else List.replicate k '\n'

/-- Scan the text, collapsing maximal newline runs through `emitNl`; `k`
counts the pending newlines. -/
def collapseNlAux : Nat → List Char → List Char
  | k, [] => emitNl k
  | k, c :: t =>
    if c = '\n' then collapseNlAux (k + 1) t
    else emitNl k ++ c :: collapseNlAux 0 t

/-- Model of `re.sub(r'\n{3,}', '\n\n', s)`. -/
def collapseNewlines (s : String) : String := String.mk (collapseNlAux 0 s.data)

/-- Remove trailing whitespace (the right half of `str.strip`). -/
def rstripList : List Char → List Char
  | [] => []
  | c :: t =>
    let r := rstripList t
    if r.isEmpty && isPySpace c then [] else c :: r

/-- Model of Python `str.strip()`. -/
def pyStrip (s : String) : String :=
  String.mk (rstripList (s.data.dropWhile isPySpace))

/-- Scanner deciding that no three consecutive newlines occur; `k` is the
length of the newline run ending at the current position. -/
def nlRunBounded : List Char → Nat → Bool
  | [], _ => true
  | c :: t, k =>
    if c = '\n' then decide (k + 1 ≤ 2) && nlRunBounded t (k + 1)
    else nlRunBounded t 0

/-- The string has no run of three or more consecutive newline characters. -/
def noTripleNewline (s : String) : Bool := nlRunBounded s.data 0

/-- The string neither starts nor ends with a whitespace character. -/
def noEdgeWhitespace (s : String) : Bool :=
  (s.data.head?.all fun c => !isPySpace c) &&
  (s.data.getLast?.all fun c => !isPySpace c)

/-! ## Substring search (Python `in` on strings, and the case-insensitive
    searches performed by `re.IGNORECASE` patterns) -/

/-- Case-sensitive: `pat` is a prefix of `l`. -/
def startsWithL : List Char → List Char → Bool
  | _, [] => true
  | [], _ :: _ => false
  | a :: as, b :: bs => a == b && startsWithL as bs

/-- Case-sensitive substring containment (Python `needle in hay`). -/
def containsL : List Char → List Char → Bool
  | [], pat => startsWithL [] pat
  | c :: t, pat => startsWithL (c :: t) pat || containsL t pat

/-- Python `needle in hay` on strings. -/
def strContains (hay needle : String) : Bool := containsL hay.data needle.data

/-- Case-insensitive character equality (`re.IGNORECASE`). -/
def ciEq (a b : Char) : Bool := a.toLower == b.toLower

/-- Case-insensitive: `pat` is a prefix of `l`. -/
def ciStartsWith : List Char → List Char → Bool
  | _, [] => true
  | [], _ :: _ => false
  | a :: as, b :: bs => ciEq a b && ciStartsWith as bs

/-- Case-insensitive substring containment. -/
def ciContainsList : List Char → List Char → Bool
  | [], pat => ciStartsWith [] pat
  | c :: t, pat => ciStartsWith (c :: t) pat || ciContainsList t pat

/-! ## The regex substitutions of the formatters

Each `re.sub` below scans left to right for non-overlapping leftmost matches
and replaces them.  The patterns only use greedy starred classes that exclude
their terminator, so matching is deterministic: every starred class runs to
the first terminator character.  `scanSub` is the generic driver; the fuel is
the input length, which suffices because every match consumes at least one
character. -/

/-- Generic `re.sub` driver: at each position try `tryMatch`; on a match emit
the replacement and continue after the match, otherwise copy one character. -/
def scanSub (tryMatch : List Char → Option (List Char × List Char)) :
    Nat → List Char → List Char
  | 0, cs => cs
  | _ + 1, [] => []
  | fuel + 1, c :: cs =>
    match tryMatch (c :: cs) with
    | some (rep, rest) => rep ++ scanSub tryMatch fuel rest
    | none => c :: scanSub tryMatch fuel cs

/-- Match, at the head of the input, an anchor tag
`<a[^>]*SEG[^>]*>TEXT</a>` (case-insensitive): the attribute segment runs to
the first `>` and must satisfy `segOk`; the text runs to the first `<`, must
start with `@` when `requireAt`; `</a>` closes the tag; when `eatWs` the
trailing `\s*` whitespace is consumed (greedy).  Returns the rest after the
match. -/
def matchAnchorAt (segOk : List Char → Bool) (requireAt eatWs : Bool) :
    List Char → Option (List Char)
  | '<' :: a :: rest =>
    if ciEq a 'a' then
      let seg := rest.takeWhile (· ≠ '>')
      match rest.dropWhile (· ≠ '>') with
      | '>' :: r2 =>
        if segOk seg then
          let body : Option (List Char) :=
            if requireAt then
              match r2 with
              | '@' :: r3 => some (r3.dropWhile (· ≠ '<'))
              | _ => none
            else some (r2.dropWhile (· ≠ '<'))
          match body with
          | some ('<' :: '/' :: a2 :: '>' :: r5) =>
            if ciEq a2 'a' then
              some (if eatWs then r5.dropWhile isPySpace else r5)
            else none
          | _ => none
        else none
      | _ => none
    else none
  | _ => none

/-- The attribute pattern `data-asana-gid="U"` of the agent-mention regex. -/
def gidAttr (u : String) : List Char := ("data-asana-gid=\"" ++ u ++ "\"").data

/-- Match of `<a[^>]*data-asana-gid="U"[^>]*>@[^<]*</a>` (IGNORECASE),
replacement empty (`sanitize_agent_mentions`, first `re.sub`). -/
def matchMentionAnchorAt (u : String) (cs : List Char) :
    Option (List Char × List Char) :=
  (matchAnchorAt (fun seg => ciContainsList seg (gidAttr u)) true false cs).map
    (fun rest => (([] : List Char), rest))

/-- Characters excluded by the `[^\s<>"]` class of the URL regex. -/
def isUrlStop (c : Char) : Bool :=
  isPySpace c || c == '<' || c == '>' || c == '"'

/-- Match of `https?://[^\s<>"]*U[^\s<>"]*` (IGNORECASE), replacement
`[link removed]` (`sanitize_agent_mentions`, second `re.sub`): both starred
classes exclude the stop characters, so the match runs to the end of the
maximal stop-free run, and succeeds exactly when that run contains `U`. -/
def matchUrlAt (u : List Char) (cs : List Char) :
    Option (List Char × List Char) :=
  let afterProto : Option (List Char) :=
    if ciStartsWith cs ("https://".data) then some (cs.drop 8)
    else if ciStartsWith cs ("http://".data) then some (cs.drop 7)
    else none
  match afterProto with
  | none => none
  | some rest =>
    if ciContainsList (rest.takeWhile (fun c => !isUrlStop c)) u then
      some ("[link removed]".data, rest.dropWhile (fun c => !isUrlStop c))
    else none

/-- Match of `\[[^\]]*\]\([^)]*U[^)]*\)` (IGNORECASE), replacement empty
(`sanitize_agent_mentions`, third `re.sub`): the link text runs to the first
`]`, which must be followed by `(`; the target runs to the first `)` and must
contain `U`. -/
def matchMdLinkAt (u : List Char) (cs : List Char) :
    Option (List Char × List Char) :=
  match cs with
  | '[' :: rest =>
    match rest.dropWhile (· ≠ ']') with
    | ']' :: '(' :: rest2 =>
      match rest2.dropWhile (· ≠ ')') with
      | ')' :: rest3 =>
        if ciContainsList (rest2.takeWhile (· ≠ ')')) u then
          some (([] : List Char), rest3)
        else none
      | _ => none
    | _ => none
  | _ => none

/-- First pass of `sanitize_agent_mentions`: remove agent mention anchors. -/
def subMentionAnchors (u : String) (l : List Char) : List Char :=
  scanSub (matchMentionAnchorAt u) l.length l

/-- Second pass: replace URLs containing the agent gid. -/
def subAgentUrls (u : String) (l : List Char) : List Char :=
  scanSub (matchUrlAt u.data) l.length l

/-- Third pass: remove markdown links whose target contains the agent gid. -/
def subAgentMdLinks (u : String) (l : List Char) : List Char :=
  scanSub (matchMdLinkAt u.data) l.length l

/-- Embedded `sanitize_agent_mentions` (`asana_reporter.py` lines 104-144):
strip agent mention anchors, URLs containing the agent gid, and markdown
links containing the agent gid, in that order. -/
def sanitize_agent_mentions (text : String) (agent_user_gid : Option String) :
    String :=
  if text = "" || !truthy agent_user_gid then text
  else
    String.mk (subAgentMdLinks (agent_user_gid.getD "")
      (subAgentUrls (agent_user_gid.getD "")
        (subMentionAnchors (agent_user_gid.getD "") text.data)))

/-- Embedded `markdown_to_asana_html` (`asana_reporter.py` lines 147-184).
The external mistune conversion `_asana_markdown(text)` (built on the
repository renderer `AsanaHTMLRenderer`) is the parameter `render`; the
sanitization before it and the newline/whitespace cleanup after it are the
repository code. -/
def markdown_to_asana_html (render : String → String)
    (markdown_text : String) (agent_user_gid : Option String) : String :=
  if markdown_text = "" then ""
  else
    pyStrip (collapseNewlines
      (render (sanitize_agent_mentions markdown_text agent_user_gid)))

/-- Decide whether the attribute segment of an anchor contains
`href=["']https?://app\.asana\.com/\d+/profile/\d+["']` starting at the head
of the input (IGNORECASE; the quotes are independent character classes). -/
def matchProfileHrefAt (cs : List Char) : Bool :=
  if ciStartsWith cs ("href=".data) then
    match cs.drop 5 with
    | q :: rest =>
      if q == '"' || q == '\'' then
        let afterProto : Option (List Char) :=
          if ciStartsWith rest ("https://".data) then some (rest.drop 8)
          else if ciStartsWith rest ("http://".data) then some (rest.drop 7)
          else none
        match afterProto with
        | some r1 =>
          if ciStartsWith r1 ("app.asana.com/".data) then
            let r2 := r1.drop 14
            let r3 := r2.dropWhile Char.isDigit
            if (r2.takeWhile Char.isDigit).isEmpty then false
            else if ciStartsWith r3 ("/profile/".data) then
              let r4 := r3.drop 9
              let r5 := r4.dropWhile Char.isDigit
              if (r4.takeWhile Char.isDigit).isEmpty then false
              else
                match r5 with
                | q2 :: _ => q2 == '"' || q2 == '\''
                | [] => false
            else false
          else false
        | none => false
      else false
    | [] => false
  else false

/-- The segment contains the profile `href` pattern at some position. -/
def containsProfileHref : List Char → Bool
  | [] => false
  | c :: t => matchProfileHrefAt (c :: t) || containsProfileHref t

/-- First `re.sub` of `asana_html_to_markdown` (`asana_service.py` lines
68-73): remove `<a ... href="https://app.asana.com/N/profile/N" ...>text</a>`
anchors together with trailing whitespace. -/
def matchProfileAnchorAt (cs : List Char) : Option (List Char × List Char) :=
  (matchAnchorAt containsProfileHref false true cs).map
    (fun rest => (([] : List Char), rest))

/-- Embedded `asana_html_to_markdown` (`asana_service.py` lines 51-88).  The
external `markdownify` conversion is the parameter `mdify`; the profile-link
removal before it and the cleanup after it are the repository code. -/
def asana_html_to_markdown (mdify : String → String) (html_text : String) :
    String :=
  if html_text = "" then ""
  else
    pyStrip (collapseNewlines (mdify
      (String.mk (scanSub matchProfileAnchorAt html_text.data.length html_text.data))))

/-- Match of `https?://app\.asana\.com/\d+/profile/\d+\s*` (IGNORECASE),
replacement empty (`clean_asana_comment`). -/
def matchProfileUrlAt (cs : List Char) : Option (List Char × List Char) :=
  let afterProto : Option (List Char) :=
    if ciStartsWith cs ("https://".data) then some (cs.drop 8)
    else if ciStartsWith cs ("http://".data) then some (cs.drop 7)
    else none
  match afterProto with
  | none => none
  | some r1 =>
    if ciStartsWith r1 ("app.asana.com/".data) then
      let r2 := r1.drop 14
      let r3 := r2.dropWhile Char.isDigit
      if (r2.takeWhile Char.isDigit).isEmpty then none
      else if ciStartsWith r3 ("/profile/".data) then
        let r4 := r3.drop 9
        let r5 := r4.dropWhile Char.isDigit
        if (r4.takeWhile Char.isDigit).isEmpty then none
        else some (([] : List Char), r5.dropWhile isPySpace)
      else none
    else none

/-- Embedded `clean_asana_comment` (`asana_service.py` lines 91-126): remove
bare Asana profile URLs, collapse newline runs, strip.  The `agent_user_gid`
parameter is unused in the source (kept for compatibility). -/
def clean_asana_comment (comment_text : String)
    (agent_user_gid : Option String) : String :=
  if comment_text = "" then comment_text
  else
    pyStrip (collapseNewlines
      (String.mk (scanSub matchProfileUrlAt comment_text.data.length comment_text.data)))

/-! ### Newline and edge-whitespace properties of the cleanup pipeline -/

theorem emitNl_bounded (k : Nat) : nlRunBounded (emitNl k) 0 = true := by
  rcases k with _ | _ | _ | n
  · decide
  · decide
  · decide
  · rw [emitNl, if_pos (by omega)]
    decide

theorem nlRunBounded_emit_cons (k : Nat) (c : Char) (hc : c ≠ '\n')
    (xs : List Char) :
    nlRunBounded (emitNl k ++ c :: xs) 0 = nlRunBounded xs 0 := by
  rcases k with _ | _ | _ | n
  · simp [emitNl, nlRunBounded, hc]
  · simp [emitNl, nlRunBounded, hc, List.replicate]
  · simp [emitNl, nlRunBounded, hc, List.replicate]
  · rw [emitNl, if_pos (by omega)]
    simp [nlRunBounded, hc]

theorem collapseNlAux_bounded (cs : List Char) :
    ∀ k, nlRunBounded (collapseNlAux k cs) 0 = true := by
  induction cs with
  | nil =>
    intro k
    exact emitNl_bounded k
  | cons c t ih =>
    intro k
    by_cases hc : c = '\n'
    · subst hc
      rw [collapseNlAux, if_pos rfl]
      exact ih (k + 1)
    · rw [collapseNlAux, if_neg hc, nlRunBounded_emit_cons k c hc]
      exact ih 0

theorem nlRunBounded_mono (l : List Char) :
    ∀ k j, j ≤ k → nlRunBounded l k = true → nlRunBounded l j = true := by
  induction l with
  | nil =>
    intro k j _ _
    rfl
  | cons c t ih =>
    intro k j hjk h
    by_cases hc : c = '\n'
    · subst hc
      rw [nlRunBounded, if_pos rfl] at h ⊢
      rw [Bool.and_eq_true] at h ⊢
      refine ⟨decide_eq_true ?_, ih (k + 1) (j + 1) (by omega) h.2⟩
      have := of_decide_eq_true h.1
      omega
    · rw [nlRunBounded, if_neg hc] at h ⊢
      exact h

theorem nlRunBounded_append_left (l₁ l₂ : List Char) :
    ∀ k, nlRunBounded (l₁ ++ l₂) k = true → nlRunBounded l₁ k = true := by
  induction l₁ with
  | nil =>
    intro k _
    rfl
  | cons c t ih =>
    intro k h
    rw [List.cons_append] at h
    by_cases hc : c = '\n'
    · subst hc
      rw [nlRunBounded, if_pos rfl] at h ⊢
      rw [Bool.and_eq_true] at h ⊢
      exact ⟨h.1, ih _ h.2⟩
    · rw [nlRunBounded, if_neg hc] at h ⊢
      exact ih _ h

theorem nlRunBounded_append_right (l₁ l₂ : List Char) :
    ∀ k, nlRunBounded (l₁ ++ l₂) k = true → nlRunBounded l₂ 0 = true := by
  induction l₁ with
  | nil =>
    intro k h
    exact nlRunBounded_mono l₂ k 0 (Nat.zero_le k) h
  | cons c t ih =>
    intro k h
    rw [List.cons_append] at h
    by_cases hc : c = '\n'
    · subst hc
      rw [nlRunBounded, if_pos rfl, Bool.and_eq_true] at h
      exact ih _ h.2
    · rw [nlRunBounded, if_neg hc] at h
      exact ih _ h

theorem rstripList_prefix (l : List Char) : rstripList l <+: l := by
  induction l with
  | nil => exact List.nil_prefix
  | cons c t ih =>
    simp only [rstripList]
    by_cases h : (rstripList t).isEmpty && isPySpace c
    · rw [if_pos h]
      exact List.nil_prefix
    · rw [if_neg h]
      exact List.cons_prefix_cons.mpr ⟨rfl, ih⟩

theorem dropWhile_head?_not (p : Char → Bool) (l : List Char) :
    ∀ c, (l.dropWhile p).head? = some c → p c = false := by
  induction l with
  | nil =>
    intro c h
    simp at h
  | cons c₀ t ih =>
    intro c h
    rw [List.dropWhile_cons] at h
    by_cases hp : p c₀ = true
    · rw [if_pos hp] at h
      exact ih c h
    · rw [if_neg hp] at h
      simp at h
      rw [← h]
      exact Bool.eq_false_iff.mpr hp

theorem rstripList_head? (l : List Char) (c : Char)
    (h : (rstripList l).head? = some c) : l.head? = some c := by
  cases l with
  | nil => simp [rstripList] at h
  | cons c₀ t =>
    simp only [rstripList] at h
    by_cases hb : (rstripList t).isEmpty && isPySpace c₀
    · rw [if_pos hb] at h
      simp at h
    · rw [if_neg hb] at h
      simpa using h

theorem rstripList_getLast? (l : List Char) :
    ∀ c, (rstripList l).getLast? = some c → isPySpace c = false := by
  induction l with
  | nil =>
    intro c h
    simp [rstripList] at h
  | cons c₀ t ih =>
    intro c h
    simp only [rstripList] at h
    by_cases hb : (rstripList t).isEmpty && isPySpace c₀
    · rw [if_pos hb] at h
      simp at h
    · rw [if_neg hb] at h
      cases hr : rstripList t with
      | nil =>
        rw [hr] at h
        simp at h
        rw [Bool.and_eq_true] at hb
        push_neg at hb
        rw [← h]
        rw [hr] at hb
        simpa using hb (by rfl)
      | cons r rs =>
        rw [hr] at h
        rw [List.getLast?_cons_cons] at h
        exact ih c (hr ▸ h)

theorem cleanup_noTriple (x : String) :
    noTripleNewline (pyStrip (collapseNewlines x)) = true := by
  have h0 : nlRunBounded (collapseNlAux 0 x.data) 0 = true :=
    collapseNlAux_bounded x.data 0
  rw [noTripleNewline]
  have hdata : (pyStrip (collapseNewlines x)).data
      = rstripList ((collapseNlAux 0 x.data).dropWhile isPySpace) := rfl
  rw [hdata]
  obtain ⟨l₁, hsuf⟩ := List.dropWhile_suffix (l := collapseNlAux 0 x.data) isPySpace
  rw [← hsuf] at h0
  have h1 := nlRunBounded_append_right l₁ _ 0 h0
  obtain ⟨t, hpre⟩ :=
    rstripList_prefix ((collapseNlAux 0 x.data).dropWhile isPySpace)
  rw [← hpre] at h1
  exact nlRunBounded_append_left _ t 0 h1

theorem cleanup_noEdge (x : String) : noEdgeWhitespace (pyStrip x) = true := by
  rw [noEdgeWhitespace]
  have hdata : (pyStrip x).data = rstripList (x.data.dropWhile isPySpace) := rfl
  rw [hdata, Bool.and_eq_true]
  constructor
  · cases hh : (rstripList (x.data.dropWhile isPySpace)).head? with
    | none => simp
    | some c =>
      have h2 := rstripList_head? _ c hh
      have h3 := dropWhile_head?_not isPySpace x.data c h2
      simp [h3]
  · cases hl : (rstripList (x.data.dropWhile isPySpace)).getLast? with
    | none => simp
    | some c =>
      have h2 := rstripList_getLast? _ c hl
      simp [h2]

/-- C10: for every external conversion function and every input, the outputs
of `markdown_to_asana_html` and of `asana_html_to_markdown` contain no run of
three or more consecutive newlines and carry no leading or trailing
whitespace. -/
theorem conversion_newline_cleanup (render mdify : String → String)
    (mdIn htmlIn : String) (agid : Option String) :
    (noTripleNewline (markdown_to_asana_html render mdIn agid) = true ∧
     noEdgeWhitespace (markdown_to_asana_html render mdIn agid) = true) ∧
    (noTripleNewline (asana_html_to_markdown mdify htmlIn) = true ∧
     noEdgeWhitespace (asana_html_to_markdown mdify htmlIn) = true) := by
  constructor
  · rw [markdown_to_asana_html]
    by_cases h : mdIn = ""
    · rw [if_pos h]
      exact ⟨rfl, rfl⟩
    · rw [if_neg h]
      exact ⟨cleanup_noTriple _, cleanup_noEdge _⟩
  · rw [asana_html_to_markdown]
    by_cases h : htmlIn = ""
    · rw [if_pos h]
      exact ⟨rfl, rfl⟩
    · rw [if_neg h]
      exact ⟨cleanup_noTriple _, cleanup_noEdge _⟩

/-! ### C9: agent self-mention removal -/

/-- Modelled from the spec: the external mistune markdown parser is not part
of this repository.  Per the spec (section 4.2) and the repository renderer
`AsanaHTMLRenderer.paragraph` (`asana_reporter.py` line 66), a single
plain-text paragraph without markup is rendered as the text followed by a
blank line. -/
def renderPlainParagraph (s : String) : String :=
  if s = "" then "" else s ++ "\n\n"

/-- C9 counterexample: the formatter output can contain the agent gid.  A
plain-text occurrence of the gid — outside any anchor, URL or markdown-link
markup — survives all three sanitization passes and the conversion, so the
output of `markdown_to_asana_html` contains it. -/
theorem mention_self_removal_cex :
    strContains
      (markdown_to_asana_html renderPlainParagraph
        "agent gid 4242 should reply" (some "4242")) "4242" = true := by
  decide

/-- A well-formed agent mention anchor, as produced by Asana rich text:
`<a data-asana-gid="U">@Name</a>`. -/
def mentionAnchor (u name : String) : String :=
  "<a data-asana-gid=\"" ++ u ++ "\">@" ++ name ++ "</a>"

theorem scanSub_nil (f : List Char → Option (List Char × List Char))
    (fuel : Nat) : scanSub f fuel [] = [] := by
  cases fuel <;> rfl

theorem ciStartsWith_refl (l : List Char) : ciStartsWith l l = true := by
  induction l with
  | nil => rfl
  | cons c t ih => simp [ciStartsWith, ciEq, ih]

theorem ciContainsList_self (l : List Char) : ciContainsList l l = true := by
  cases l with
  | nil => rfl
  | cons c t => simp [ciContainsList, ciStartsWith_refl]

theorem ciContainsList_cons_of (c : Char) (l pat : List Char)
    (h : ciContainsList l pat = true) :
    ciContainsList (c :: l) pat = true := by
  rw [ciContainsList, h, Bool.or_true]

theorem takeWhile_append_all {α : Type} (p : α → Bool) (l₁ l₂ : List α)
    (h : ∀ a ∈ l₁, p a = true) :
    (l₁ ++ l₂).takeWhile p = l₁ ++ l₂.takeWhile p := by
  induction l₁ with
  | nil => simp
  | cons a t ih =>
    rw [List.cons_append, List.takeWhile_cons, h a (List.mem_cons_self a t),
      if_pos rfl, ih (fun b hb => h b (List.mem_cons_of_mem a hb)),
      List.cons_append]

theorem dropWhile_append_all {α : Type} (p : α → Bool) (l₁ l₂ : List α)
    (h : ∀ a ∈ l₁, p a = true) :
    (l₁ ++ l₂).dropWhile p = l₂.dropWhile p := by
  induction l₁ with
  | nil => simp
  | cons a t ih =>
    rw [List.cons_append, List.dropWhile_cons, h a (List.mem_cons_self a t),
      if_pos rfl]
    exact ih (fun b hb => h b (List.mem_cons_of_mem a hb))

/-- The first sanitization pass erases a comment consisting of exactly one
well-formed mention anchor of the agent, for every agent id (not containing
the tag terminator) and every display name (not opening a nested tag). -/
theorem subMentionAnchors_anchor (u name : String)
    (hgt : '>' ∉ u.data) (hlt : '<' ∉ name.data) :
    subMentionAnchors u ((mentionAnchor u name).data) = [] := by
  have hlit : ("<a data-asana-gid=\"" : String).data
      = '<' :: 'a' :: ' ' :: ("data-asana-gid=\"" : String).data := rfl
  have hL : (mentionAnchor u name).data
      = '<' :: 'a' :: ((' ' :: ("data-asana-gid=\"" : String).data) ++
          (u.data ++ ('"' :: '>' :: '@' :: (name.data ++ ['<', '/', 'a', '>'])))) := by
    simp [mentionAnchor, String.data_append, hlit]
  have hp1 : ∀ a ∈ (' ' :: ("data-asana-gid=\"" : String).data),
      decide (a ≠ '>') = true := by decide
  have hp2 : ∀ a ∈ u.data, decide (a ≠ '>') = true := by
    intro a ha
    exact decide_eq_true (fun hh => hgt (hh ▸ ha))
  have hTake : ((' ' :: ("data-asana-gid=\"" : String).data) ++
        (u.data ++ ('"' :: '>' :: '@' :: (name.data ++ ['<', '/', 'a', '>'])))).takeWhile
          (fun c => decide (c ≠ '>'))
      = (' ' :: ("data-asana-gid=\"" : String).data) ++ (u.data ++ ['"']) := by
    rw [takeWhile_append_all _ _ _ hp1, takeWhile_append_all _ _ _ hp2,
      List.takeWhile_cons]
    simp
  have hDrop : ((' ' :: ("data-asana-gid=\"" : String).data) ++
        (u.data ++ ('"' :: '>' :: '@' :: (name.data ++ ['<', '/', 'a', '>'])))).dropWhile
          (fun c => decide (c ≠ '>'))
      = '>' :: '@' :: (name.data ++ ['<', '/', 'a', '>']) := by
    rw [dropWhile_append_all _ _ _ hp1, dropWhile_append_all _ _ _ hp2,
      List.dropWhile_cons]
    simp [List.dropWhile_cons]
  have hSeg : ciContainsList
      ((' ' :: ("data-asana-gid=\"" : String).data) ++ (u.data ++ ['"']))
      (gidAttr u) = true := by
    have hattr : gidAttr u
        = ("data-asana-gid=\"" : String).data ++ (u.data ++ ['"']) := by
      simp [gidAttr, String.data_append]
    rw [List.cons_append, ← hattr]
    exact ciContainsList_cons_of ' ' _ _ (ciContainsList_self _)
  have hpn : ∀ a ∈ name.data, (fun c => decide (c ≠ '<')) a = true := by
    intro a ha
    have hne : a ≠ '<' := fun hh => hlt (hh ▸ ha)
    simpa using hne
  have hName : (name.data ++ ['<', '/', 'a', '>']).dropWhile
      (fun c => decide (c ≠ '<')) = ['<', '/', 'a', '>'] := by
    rw [dropWhile_append_all _ _ _ hpn]
    simp [List.dropWhile_cons]
  have hmatch : matchMentionAnchorAt u ((mentionAnchor u name).data)
      = some ([], []) := by
    rw [hL, matchMentionAnchorAt, matchAnchorAt]
    rw [if_pos (show ciEq 'a' 'a' = true from rfl)]
    rw [hTake, hDrop]
    simp only
    rw [if_pos hSeg]
    simp only [hName]
    rfl
  rw [subMentionAnchors, hL, List.length_cons, scanSub, ← hL, hmatch]
  simp [scanSub_nil]

set_option maxRecDepth 8192 in
/-- C9 (amended): the formatter removes mention markup referencing the agent
id, though not plain-text occurrences of the id.  First conjunct: for every
agent id (nonempty, no tag terminator) and display name (no tag opener), and
every renderer mapping empty input to empty output, a comment that is exactly
a mention anchor of the agent is formatted to the empty string.  Second
conjunct: on a representative comment carrying all three markup forms (a
mention anchor, a URL containing the id, a markdown link whose target
contains the id), the output contains no occurrence of the id. -/
theorem mention_markup_removed (u name : String) (render : String → String)
    (hu : u ≠ "") (hgt : '>' ∉ u.data) (hlt : '<' ∉ name.data)
    (hrender : render "" = "") :
    markdown_to_asana_html render (mentionAnchor u name) (some u) = "" ∧
    strContains
      (markdown_to_asana_html renderPlainParagraph
        "see <a data-asana-gid=\"4242\">@Agent</a> and https://app.asana.com/0/profile/4242 and [me](https://x.com/4242) ok"
        (some "4242")) "4242" = false := by
  constructor
  · have hne : mentionAnchor u name ≠ "" := by
      intro h
      have h2 := congrArg String.data h
      have h3 : (mentionAnchor u name).data
          = '<' :: 'a' :: ((' ' :: ("data-asana-gid=\"" : String).data) ++
              (u.data ++ ('"' :: '>' :: '@' :: (name.data ++ ['<', '/', 'a', '>'])))) := by
        simp [mentionAnchor, String.data_append,
          show ("<a data-asana-gid=\"" : String).data
            = '<' :: 'a' :: ' ' :: ("data-asana-gid=\"" : String).data from rfl]
      rw [h3] at h2
      simp at h2
    have hsan : sanitize_agent_mentions (mentionAnchor u name) (some u) = "" := by
      rw [sanitize_agent_mentions]
      rw [if_neg (by simp [truthy, hne, hu])]
      rw [show (some u).getD "" = u from rfl, subMentionAnchors_anchor u name hgt hlt]
      rfl
    rw [markdown_to_asana_html, if_neg hne, hsan, hrender]
    rfl
  · decide

/-- Witness for `mention_markup_removed` at the agent id 4242 and display
name Agent, with the plain-paragraph renderer. -/
theorem mention_markup_removed_witness :
    (("4242" : String) ≠ "" ∧
      markdown_to_asana_html renderPlainParagraph (mentionAnchor "4242" "Agent")
        (some "4242") = "") := by
  refine ⟨by decide, ?_⟩
  exact (mention_markup_removed "4242" "Agent" renderPlainParagraph
    (by decide) (by decide) (by decide) rfl).1

/-! ## The reconciler service (`asana_service.py`)

The service functions perform I/O against external collaborators: the settings
store, the Asana REST client, the conversation runtime and the persisted
mapping file.  They are embedded as pure functions over an environment record
describing the outcome of each external call (`none` models a raised
exception) and over the explicit mapping state; the observable effects —
conversations created, messages delivered, comments posted, the new mapping —
are returned in a result record. -/

/-- Embedded `AsanaUser`. -/
structure AsanaUserM where
  gid : String
  name : Option String
deriving DecidableEq, Repr

/-- Embedded `AsanaProject`. -/
structure AsanaProjectM where
  gid : String
  name : Option String
deriving DecidableEq, Repr

/-- A bare resource reference (only the gid is read). -/
structure AsanaRefM where
  gid : String
deriving DecidableEq, Repr

/-- Embedded `AsanaTask`, restricted to the fields the service reads. -/
structure AsanaTaskM where
  gid : String
  name : String
  notes : Option String
  html_notes : Option String
  due_on : Option String
  assignee : Option AsanaUserM
  projects : List AsanaProjectM
  permalink_url : Option String
deriving DecidableEq, Repr

/-- Embedded `Story`.  `createdAtFmt` carries the
`created_at.strftime('%Y-%m-%d %H:%M')` rendering of the timestamp when
`created_at` is present (`none` models an absent timestamp). -/
structure StoryM where
  gid : String
  text : Option String
  html_text : Option String
  resource_subtype : Option String
  created_by : Option AsanaUserM
  createdAtFmt : Option String
  target : Option AsanaRefM
deriving DecidableEq, Repr

/-- Embedded `AsanaSettings` (the dataclass of `asana_service.py`). -/
structure AsanaSettingsM where
  access_token : String
  workspace_gid : Option String
  project_gid : Option String
  agent_user_gid : Option String
deriving DecidableEq, Repr

/-- `mapping.get(task_gid)` on the persisted task-to-conversation mapping
(a JSON object, modeled as an association list). -/
def lookupMapping (m : List (String × String)) (k : String) : Option String :=
  (m.find? (fun p => p.1 == k)).map (fun p => p.2)

/-- `del mapping[task_gid]`. -/
def removeMapping (m : List (String × String)) (k : String) :
    List (String × String) :=
  m.filter (fun p => p.1 ≠ k)

/-- `mapping[task_gid] = conversation_id`: replace in place, or append. -/
def insertMapping (m : List (String × String)) (k v : String) :
    List (String × String) :=
  if (m.find? (fun p => p.1 == k)).isSome then
    m.map (fun p => if p.1 == k then (k, v) else p)
  else m ++ [(k, v)]

/-- Embedded `get_conversation_for_task` (`asana_service.py` lines 157-173):
look up the mapping; a live conversation is returned as is, a dead one is
removed from the mapping (which is saved).  `live` is the set of conversation
ids for which `conversation_manager.get_agent_session` returns a session.
Returns the result and the (possibly updated) mapping. -/
def get_conversation_for_task (live : List String)
    (m : List (String × String)) (task_gid : String) :
    Option String × List (String × String) :=
  match lookupMapping m task_gid with
  | some cid =>
    if cid ≠ "" then
      if cid ∈ live then (some cid, m)
      else (none, removeMapping m task_gid)
    else (none, m)
  | none => (none, m)

/-- The assignee filter of `process_task_assignment` (lines 283-290): when an
agent user gid is configured (truthy), the task must be assigned to it. -/
def passesAssigneeFilter (st : AsanaSettingsM) (task : AsanaTaskM) : Bool :=
  match st.agent_user_gid with
  | some agid =>
    if agid ≠ "" then
      match task.assignee with
      | some u => u.gid == agid
      | none => false
    else true
  | none => true

/-- The task-description section shared by both message builders: prefer
converted `html_notes` (dropping the section when the conversion is empty),
fall back to `notes`. -/
def descriptionParts (mdify : String → String) (task : AsanaTaskM) :
    List String :=
  if truthy task.html_notes then
    if asana_html_to_markdown mdify (task.html_notes.getD "") ≠ "" then
      ["## Description", asana_html_to_markdown mdify (task.html_notes.getD ""), ""]
    else []
  else if truthy task.notes then ["## Description", task.notes.getD "", ""]
  else []

/-- Embedded `build_task_message` (`asana_service.py` lines 574-611). -/
def build_task_message (mdify : String → String) (task : AsanaTaskM) : String :=
  String.intercalate "\n"
    (["# Asana Task: " ++ task.name, ""] ++ descriptionParts mdify task ++
      ["## Task Details", "- **Task ID**: " ++ task.gid] ++
      (if truthy task.permalink_url then
        ["- **Link**: " ++ task.permalink_url.getD ""] else []) ++
      (if truthy task.due_on then
        ["- **Due Date**: " ++ task.due_on.getD ""] else []) ++
      (if task.projects ≠ [] then
        (if (task.projects.filterMap (fun p => p.name)).filter
              (fun n => n ≠ "") ≠ [] then
          ["- **Projects**: " ++ String.intercalate ", "
            ((task.projects.filterMap (fun p => p.name)).filter (fun n => n ≠ ""))]
        else [])
      else []) ++
      ["", "---", "", "Please analyze this task and work on completing it."])

/-- One previous-comment block of `build_task_message_with_question` (lines
649-672): author (a missing name renders as the Python `None`), optional
timestamp, optional profile link, converted text. -/
def commentBlock (mdify : String → String) (c : StoryM) : List String :=
  (if (match c.created_by with
       | some u => u.gid
       | none => "") ≠ "" then
    ["**" ++ (match c.created_by with
              | some u => match u.name with | some n => n | none => "None"
              | none => "Unknown") ++ "**" ++
      (if truthy c.createdAtFmt then " (" ++ c.createdAtFmt.getD "" ++ ")" else "") ++
      " (https://app.asana.com/0/" ++
      (match c.created_by with | some u => u.gid | none => "") ++ "):"]
  else
    ["**" ++ (match c.created_by with
              | some u => match u.name with | some n => n | none => "None"
              | none => "Unknown") ++ "**" ++
      (if truthy c.createdAtFmt then " (" ++ c.createdAtFmt.getD "" ++ ")" else "") ++
      ":"]) ++
  [(if truthy c.html_text then asana_html_to_markdown mdify (c.html_text.getD "")
    else c.text.getD ""), ""]

/-- Embedded `build_task_message_with_question` (lines 614-682). -/
def build_task_message_with_question (mdify : String → String)
    (task : AsanaTaskM) (question : String) (previous : List StoryM) : String :=
  String.intercalate "\n"
    (descriptionParts mdify task ++
      (if previous ≠ [] then
        ["## Previous Comments", ""] ++ previous.flatMap (commentBlock mdify)
      else []) ++
      ["---", "", "## Question", "", question])

/-- Kinds of comments the assignment protocol can post back to the task. -/
inductive CommentKind where
  | errorStartFailure
  | conversationLink
deriving DecidableEq, Repr

/-- A comment posted back to Asana. -/
structure PostedComment where
  task_gid : String
  kind : CommentKind
  is_pinned : Bool
deriving DecidableEq, Repr

/-- External-collaborator outcomes for `process_task_assignment`. -/
structure TaskEnv where
  settings : Option AsanaSettingsM
  fetchTask : String → Option AsanaTaskM
  createConversation : Option String
  live : List String
  postCommentOk : Bool
  mdify : String → String

/-- Observable outcome of `process_task_assignment`: return value, final
mapping, conversations created, comments posted, and the initial message a
created conversation was started with. -/
structure AssignmentResult where
  ret : Option String
  mapping : List (String × String)
  created : List String
  comments : List PostedComment
  messageUsed : Option String

/-- Embedded `process_task_assignment` (`asana_service.py` lines 253-351):
settings load, task fetch, assignee filter, best-effort like (no observable
outcome), existing-mapping short circuit, conversation creation with mapping
store and best-effort pinned link comment, error comment on creation
failure. -/
def process_task_assignment (env : TaskEnv)
    (mapping0 : List (String × String)) (task_gid : String) :
    AssignmentResult :=
  match env.settings with
  | none => ⟨none, mapping0, [], [], none⟩
  | some st =>
    match env.fetchTask task_gid with
    | none => ⟨none, mapping0, [], [], none⟩
    | some task =>
      if passesAssigneeFilter st task then
        match get_conversation_for_task env.live mapping0 task_gid with
        | (some cid, m1) => ⟨some cid, m1, [], [], none⟩
        | (none, m1) =>
          match env.createConversation with
          | none =>
            ⟨none, m1, [],
              if env.postCommentOk then [⟨task_gid, .errorStartFailure, false⟩]
              else [], none⟩
          | some cid =>
            ⟨some cid, insertMapping m1 task_gid cid, [cid],
              (if env.postCommentOk then [⟨task_gid, .conversationLink, true⟩]
               else []),
              some (build_task_message env.mdify task)⟩
      else ⟨none, mapping0, [], [], none⟩

/-- C4: re-assignment of an already-mapped task whose conversation is still
live returns that conversation id unchanged, creates no conversation, posts
no comment (pinned or otherwise) and leaves the persisted mapping
unchanged. -/
theorem reassignment_idempotent (env : TaskEnv)
    (m : List (String × String)) (task_gid cid : String)
    (st : AsanaSettingsM) (task : AsanaTaskM)
    (hs : env.settings = some st)
    (hf : env.fetchTask task_gid = some task)
    (hpass : passesAssigneeFilter st task = true)
    (hmap : lookupMapping m task_gid = some cid)
    (hcid : cid ≠ "")
    (hlive : cid ∈ env.live) :
    process_task_assignment env m task_gid = ⟨some cid, m, [], [], none⟩ := by
  have hconv : get_conversation_for_task env.live m task_gid = (some cid, m) := by
    rw [get_conversation_for_task, hmap]
    simp only [if_pos hcid, if_pos hlive]
  rw [process_task_assignment, hs]
  simp only [hf, if_pos hpass, hconv]

/-- Witness for `reassignment_idempotent` at a concrete environment with a
mapped live conversation. -/
theorem reassignment_idempotent_witness :
    ((some "C1" : Option String) = some "C1" ∧
      process_task_assignment
        ⟨some ⟨"tok", none, none, some "4242"⟩,
          (fun g => if g == "T1" then
            some ⟨"T1", "Fix", none, none, none, some ⟨"4242", some "Bot"⟩, [], none⟩
            else none),
          some "C9", ["C1"], true, id⟩
        [("T1", "C1")] "T1"
      = ⟨some "C1", [("T1", "C1")], [], [], none⟩) := by
  refine ⟨rfl, ?_⟩
  exact reassignment_idempotent _ [("T1", "C1")] "T1" "C1"
    ⟨"tok", none, none, some "4242"⟩
    ⟨"T1", "Fix", none, none, none, some ⟨"4242", some "Bot"⟩, [], none⟩
    rfl rfl (by decide) rfl (by decide) (by decide)

/-! ### The comment-mention protocol (`process_story_mention`) -/

/-- External-collaborator outcomes for `process_story_mention`.  `sendOk` is
the result of `send_message_to_conversation` (false covers a missing agent
session or a raised exception, in which case nothing was delivered). -/
structure StoryEnv where
  settings : Option AsanaSettingsM
  fetchStory : String → Option StoryM
  fetchTask : String → Option AsanaTaskM
  fetchStories : String → Option (List StoryM)
  createConversation : Option String
  live : List String
  sendOk : Bool
  mdify : String → String

/-- Observable outcome of `process_story_mention`. -/
structure MentionResult where
  ret : Option String
  mapping : List (String × String)
  created : List String
  messagesSent : List (String × String)
  messageUsed : Option String

/-- The no-op outcome: return `None` with no effects. -/
def storyNoOp (m : List (String × String)) : MentionResult :=
  ⟨none, m, [], [], none⟩

/-- The mention gate (lines 462-470): the agent gid must occur as a substring
of the HTML text (`asana_settings.agent_user_gid in story.html_text`, guarded
by the truthiness of `html_text`). -/
def agentMentioned (st : AsanaSettingsM) (story : StoryM) : Bool :=
  truthy story.html_text &&
    strContains (story.html_text.getD "") (st.agent_user_gid.getD "")

/-- The comment text (lines 472-476): prefer converted `html_text`, fall back
to `text or ''`. -/
def storyCommentText (mdify : String → String) (story : StoryM) : String :=
  if truthy story.html_text then
    asana_html_to_markdown mdify (story.html_text.getD "")
  else story.text.getD ""

/-- Parent-task resolution (lines 482-489): the event parent when truthy,
else the story target. -/
def resolveTaskGid (parent_gid : Option String) (story : StoryM) :
    Option String :=
  if truthy parent_gid then parent_gid
  else story.target.map (fun r => r.gid)

/-- The new-conversation branch of `process_story_mention` (lines 526-571):
fetch the task and its stories for context — on failure of either fetch fall
back to the cleaned comment alone — then create the conversation and store
the mapping; creation failure aborts with `None`. -/
def mentionCreateBranch (env : StoryEnv) (m1 : List (String × String))
    (story_gid task_gid cleaned : String) : MentionResult :=
  match env.createConversation with
  | none => ⟨none, m1, [], [], none⟩
  | some cid =>
    ⟨some cid, insertMapping m1 task_gid cid, [cid], [],
      some (match env.fetchTask task_gid, env.fetchStories task_gid with
        | some task, some stories =>
          build_task_message_with_question env.mdify task cleaned
            (stories.filter (fun s =>
              s.resource_subtype == some "comment_added" && s.gid ≠ story_gid))
        | _, _ => cleaned)⟩

/-- Embedded `process_story_mention` (`asana_service.py` lines 418-571).
The best-effort like of the story has no observable outcome and is not
modeled; the conversation title (`task_name`) is not modeled. -/
def process_story_mention (env : StoryEnv)
    (mapping0 : List (String × String)) (story_gid : String)
    (parent_gid : Option String) : MentionResult :=
  match env.settings with
  | none => storyNoOp mapping0
  | some st =>
    if !truthy st.agent_user_gid then storyNoOp mapping0
    else
      match env.fetchStory story_gid with
      | none => storyNoOp mapping0
      | some story =>
        if story.resource_subtype ≠ some "comment_added" then storyNoOp mapping0
        else if !agentMentioned st story then storyNoOp mapping0
        else if pyStrip (storyCommentText env.mdify story) = "" then
          storyNoOp mapping0
        else
          match resolveTaskGid parent_gid story with
          | none => storyNoOp mapping0
          | some tg =>
            if tg = "" then storyNoOp mapping0
            else
              match get_conversation_for_task env.live mapping0 tg with
              | (some cid, m1) =>
                if env.sendOk then
                  ⟨some cid, m1, [],
                    [(cid, clean_asana_comment
                        (storyCommentText env.mdify story) st.agent_user_gid)],
                    none⟩
                else
                  mentionCreateBranch env m1 story_gid tg
                    (clean_asana_comment
                      (storyCommentText env.mdify story) st.agent_user_gid)
              | (none, m1) =>
                mentionCreateBranch env m1 story_gid tg
                  (clean_asana_comment
                    (storyCommentText env.mdify story) st.agent_user_gid)

/-- C5: a fetched story whose HTML does not reference the configured agent
identifier is a no-op — `process_story_mention` returns `None`, creates no
conversation, delivers no message and leaves the mapping unchanged, for any
comment body. -/
theorem mention_gate_no_op (env : StoryEnv) (m : List (String × String))
    (story_gid : String) (parent_gid : Option String)
    (st : AsanaSettingsM) (story : StoryM)
    (hs : env.settings = some st)
    (hst : env.fetchStory story_gid = some story)
    (hmention : agentMentioned st story = false) :
    process_story_mention env m story_gid parent_gid = storyNoOp m := by
  rw [process_story_mention, hs]
  simp only
  by_cases hag : truthy st.agent_user_gid
  · rw [if_neg (by simp [hag]), hst]
    simp only
    by_cases hsub : story.resource_subtype ≠ some "comment_added"
    · rw [if_pos hsub]
    · rw [if_neg hsub, if_pos (by simp [hmention])]
  · rw [if_pos (by simp [hag])]

/-- Witness for `mention_gate_no_op`: a comment mentioning a different user
is fully ignored. -/
theorem mention_gate_no_op_witness :
    ((some "4242" : Option String) = some "4242" ∧
      process_story_mention
        ⟨some ⟨"tok", none, none, some "4242"⟩,
          (fun g => if g == "S1" then
            some ⟨"S1", some "hi", some "hi <a data-asana-gid=\"777\">@Amy</a>",
              some "comment_added", none, none, some ⟨"T1"⟩⟩
            else none),
          (fun _ => none), (fun _ => none), some "C9", [], true, id⟩
        [("T1", "C1")] "S1" none
      = storyNoOp [("T1", "C1")]) := by
  refine ⟨rfl, ?_⟩
  exact mention_gate_no_op _ [("T1", "C1")] "S1" none
    ⟨"tok", none, none, some "4242"⟩
    ⟨"S1", some "hi", some "hi <a data-asana-gid=\"777\">@Amy</a>",
      some "comment_added", none, none, some ⟨"T1"⟩⟩
    rfl rfl (by decide)

/-! ### C8: context-fetch failure in the mention protocol -/

set_option maxRecDepth 8192 in
/-- C8 counterexample: with no live mapped conversation and a failing parent
task fetch, `process_story_mention` does not abort — it still creates a
conversation (here `C77`), contradicting the claim that no conversation is
created for that event.  The environment: agent 4242 mentioned in the
comment, `get_task` and `get_task_stories` raise, conversation creation
succeeds. -/
theorem mention_fetch_failure_creates_cex :
    (process_story_mention
        ⟨some ⟨"tok", none, none, some "4242"⟩,
          (fun g => if g == "S1" then
            some ⟨"S1", some "hi", some "hi <a data-asana-gid=\"4242\">@Bot</a> fix",
              some "comment_added", none, none, some ⟨"T1"⟩⟩
            else none),
          (fun _ => none), (fun _ => none), some "C77", [], true, id⟩
        [] "S1" (some "T9")).created = ["C77"] := by
  decide

/-- C8 (amended): when no live mapped conversation exists and fetching the
parent task or its prior comments fails, the mention protocol does not abort:
it logs, falls back to the cleaned comment alone as the initial message, and
still creates a conversation, storing the mapping.  Only conversation
creation failure (and the earlier story fetch failure) abort with `None`; no
exception escapes the dispatch boundary (the embedding is a total
function). -/
theorem mention_context_fetch_failure_falls_back (env : StoryEnv)
    (m : List (String × String)) (story_gid : String)
    (parent_gid : Option String) (st : AsanaSettingsM) (story : StoryM)
    (tg cid : String)
    (hs : env.settings = some st)
    (hag : truthy st.agent_user_gid = true)
    (hst : env.fetchStory story_gid = some story)
    (hsub : story.resource_subtype = some "comment_added")
    (hmen : agentMentioned st story = true)
    (htext : pyStrip (storyCommentText env.mdify story) ≠ "")
    (htg : resolveTaskGid parent_gid story = some tg)
    (htgne : tg ≠ "")
    (hnolive : (get_conversation_for_task env.live m tg).1 = none)
    (hfail : env.fetchTask tg = none ∨ env.fetchStories tg = none)
    (hcreate : env.createConversation = some cid) :
    process_story_mention env m story_gid parent_gid
      = ⟨some cid,
          insertMapping (get_conversation_for_task env.live m tg).2 tg cid,
          [cid], [],
          some (clean_asana_comment (storyCommentText env.mdify story)
            st.agent_user_gid)⟩ := by
  have hbranch : mentionCreateBranch env (get_conversation_for_task env.live m tg).2
      story_gid tg (clean_asana_comment (storyCommentText env.mdify story)
        st.agent_user_gid)
      = ⟨some cid,
          insertMapping (get_conversation_for_task env.live m tg).2 tg cid,
          [cid], [],
          some (clean_asana_comment (storyCommentText env.mdify story)
            st.agent_user_gid)⟩ := by
    rw [mentionCreateBranch, hcreate]
    rcases hfail with hfa | hfb
    · rw [hfa]
    · rw [hfb]
      match henv : env.fetchTask tg with
      | none => rfl
      | some t => rfl
  rw [process_story_mention, hs]
  simp only
  rw [if_neg (by simp [hag]), hst]
  simp only
  rw [if_neg (by simp [hsub]), if_neg (by simp [hmen]), if_neg htext, htg]
  simp only
  rw [if_neg htgne]
  match hconv : get_conversation_for_task env.live m tg with
  | (some c, m1) => rw [hconv] at hnolive; simp at hnolive
  | (none, m1) =>
    simp only
    rw [hconv] at hbranch
    exact hbranch

set_option maxRecDepth 8192 in
/-- Witness for `mention_context_fetch_failure_falls_back` at the concrete
counterexample environment: the fallback conversation is created with the
cleaned comment as initial message and the mapping is stored. -/
theorem mention_context_fetch_failure_witness :
    ((some "C77" : Option String) = some "C77" ∧
      process_story_mention
        ⟨some ⟨"tok", none, none, some "4242"⟩,
          (fun g => if g == "S1" then
            some ⟨"S1", some "hi", some "hi <a data-asana-gid=\"4242\">@Bot</a> fix",
              some "comment_added", none, none, some ⟨"T1"⟩⟩
            else none),
          (fun _ => none), (fun _ => none), some "C77", [], true, id⟩
        [] "S1" (some "T9")
      = ⟨some "C77", [("T9", "C77")], ["C77"], [],
          some (clean_asana_comment
            (storyCommentText id
              ⟨"S1", some "hi", some "hi <a data-asana-gid=\"4242\">@Bot</a> fix",
                some "comment_added", none, none, some ⟨"T1"⟩⟩)
            (some "4242"))⟩) := by
  refine ⟨rfl, ?_⟩
  exact mention_context_fetch_failure_falls_back
    ⟨some ⟨"tok", none, none, some "4242"⟩,
      (fun g => if g == "S1" then
        some ⟨"S1", some "hi", some "hi <a data-asana-gid=\"4242\">@Bot</a> fix",
          some "comment_added", none, none, some ⟨"T1"⟩⟩
        else none),
      (fun _ => none), (fun _ => none), some "C77", [], true, id⟩
    [] "S1" (some "T9") ⟨"tok", none, none, some "4242"⟩
    ⟨"S1", some "hi", some "hi <a data-asana-gid=\"4242\">@Bot</a> fix",
      some "comment_added", none, none, some ⟨"T1"⟩⟩
    "T9" "C77" rfl (by decide) rfl rfl (by decide) (by decide) (by decide)
    (by decide) rfl (Or.inl rfl) rfl

/-! ## The result-reporter listener
    (`asana_reporter.py` lines 435-518, `asana_service.py` lines 765-862)

A listener is armed with `_reported = False` at creation
(`AsanaConversationListener` default) and re-armed when
`send_message_to_conversation` resets the flag.  Between one arming and the
next re-arm two code paths can post a result comment:

* the subscribed callback (`create_callback`): on a terminal
  `AgentStateChangedObservation` it checks `self._reported`, sets it, and
  reports (`asana_reporter.py` lines 484-511);
* the catch-up scan at the end of `subscribe_to_conversation_events`: when a
  terminal state is found among recent events it sets `listener._reported =
  True` — without checking it first — and reports (`asana_service.py` lines
  846-855).

The two decisions are modeled as atomic steps on the listener state, ordered
by their actual execution order; a trace is any interleaving that the runtime
can produce between one arming and the next re-arm. -/

/-- Modelled from the spec: the terminal agent states (the `AgentState` enum
lives outside `src/`); the spec lists finished, stopped, error, rejected and
awaiting-user-input. -/
def TERMINAL_STATES : List String :=
  ["finished", "stopped", "error", "rejected", "awaiting_user_input"]

/-- One report-capable step.  `callbackEvent none` models an event that is
not an `AgentStateChangedObservation` or carries an invalid state value;
`reportOk` tells whether the report attempt posted its comment (the flag is
set before the attempt in both source paths). -/
inductive ListenerStep where
  | callbackEvent (agentState : Option String) (reportOk : Bool)
  | catchupScan (foundTerminal : Bool) (reportOk : Bool)
deriving DecidableEq, Repr

/-- Listener state: the `_reported` flag and the number of result comments
posted to the task since arming. -/
structure ListenerState where
  reported : Bool
  postedComments : Nat
deriving DecidableEq, Repr

/-- A freshly armed (or just re-armed) listener. -/
def armedListener : ListenerState := ⟨false, 0⟩

/-- One atomic reporting decision, faithful to the two source paths: the
callback skips non-terminal states and checks the flag before setting it; the
catch-up sets the flag and reports unconditionally when it found a terminal
state. -/
def stepListener (s : ListenerState) : ListenerStep → ListenerState
  | .callbackEvent none _ => s
  | .callbackEvent (some a) ok =>
    if a ∈ TERMINAL_STATES then
      if s.reported then s
      else ⟨true, s.postedComments + (if ok then 1 else 0)⟩
    else s
  | .catchupScan found ok =>
    if found then ⟨true, s.postedComments + (if ok then 1 else 0)⟩
    else s

/-- Run a trace of reporting decisions. -/
def runListener (s : ListenerState) (steps : List ListenerStep) : ListenerState :=
  steps.foldl stepListener s

/-- A step originating from the subscribed callback. -/
def isCallbackStep : ListenerStep → Bool
  | .callbackEvent _ _ => true
  | .catchupScan _ _ => false

theorem stepListener_pres (s : ListenerState) (x : ListenerStep)
    (hx : ∀ f ok, x = ListenerStep.catchupScan f ok → f = false)
    (h0 : s.reported = false → s.postedComments = 0)
    (h1 : s.postedComments ≤ 1) :
    ((stepListener s x).reported = false → (stepListener s x).postedComments = 0) ∧
      (stepListener s x).postedComments ≤ 1 := by
  match x with
  | .callbackEvent none ok =>
    simp only [stepListener]
    exact ⟨h0, h1⟩
  | .callbackEvent (some a) ok =>
    simp only [stepListener]
    by_cases ha : a ∈ TERMINAL_STATES
    · rw [if_pos ha]
      by_cases hr : s.reported
      · rw [if_pos hr]
        exact ⟨h0, h1⟩
      · rw [if_neg hr]
        have hp0 : s.postedComments = 0 := h0 (by simpa using hr)
        constructor
        · intro h
          simp at h
        · simp only [hp0]
          cases ok <;> simp
    · rw [if_neg ha]
      exact ⟨h0, h1⟩
  | .catchupScan f ok =>
    have hf : f = false := hx f ok rfl
    subst hf
    simp only [stepListener, Bool.false_eq_true, if_false]
    exact ⟨h0, h1⟩

theorem runListener_no_found_invariant (steps : List ListenerStep) :
    ∀ s : ListenerState,
      (∀ f ok, ListenerStep.catchupScan f ok ∈ steps → f = false) →
      (s.reported = false → s.postedComments = 0) → s.postedComments ≤ 1 →
      ((runListener s steps).reported = false →
          (runListener s steps).postedComments = 0) ∧
        (runListener s steps).postedComments ≤ 1 := by
  induction steps with
  | nil =>
    intro s _ h0 h1
    exact ⟨h0, h1⟩
  | cons x t ih =>
    intro s hno h0 h1
    rw [runListener, List.foldl_cons]
    have hx : ∀ f ok, x = ListenerStep.catchupScan f ok → f = false :=
      fun f ok hfe => hno f ok (hfe ▸ List.mem_cons_self x t)
    obtain ⟨g0, g1⟩ := stepListener_pres s x hx h0 h1
    exact ih (stepListener s x)
      (fun f ok hm => hno f ok (List.mem_cons_of_mem x hm)) g0 g1

theorem runListener_reported_frozen (steps : List ListenerStep) :
    ∀ s : ListenerState, (∀ x ∈ steps, isCallbackStep x = true) →
      s.reported = true → runListener s steps = s := by
  induction steps with
  | nil =>
    intro s _ _
    rfl
  | cons x t ih =>
    intro s hcb hr
    rw [runListener, List.foldl_cons]
    have hstep : stepListener s x = s := by
      match x with
      | .callbackEvent none ok => rfl
      | .callbackEvent (some a) ok =>
        simp only [stepListener]
        by_cases ha : a ∈ TERMINAL_STATES
        · rw [if_pos ha, if_pos hr]
        · rw [if_neg ha]
      | .catchupScan f ok =>
        have := hcb _ (List.mem_cons_self _ t)
        simp [isCallbackStep] at this
    rw [hstep]
    exact ih s (fun y hy => hcb y (List.mem_cons_of_mem x hy)) hr

/-- C7 counterexample: two result comments between one arming and the next
re-arm.  A terminal state lands after the callback is attached but before the
catch-up scan runs: the callback reports first, then the catch-up — which
sets `_reported` without checking it — finds the same terminal state in the
recent events and reports again. -/
theorem listener_double_report_cex :
    (runListener armedListener
      [ListenerStep.callbackEvent (some "finished") true,
       ListenerStep.catchupScan true true]).postedComments = 2 := by
  decide

/-- C7 (amended): at most one result comment per arming holds as long as the
catch-up scan does not fire after the callback already reported.  First
conjunct: every trace whose catch-up scans found no terminal state posts at
most one comment (the callback checks and sets `_reported`).  Second
conjunct: in the subscription race of the spec — the terminal state occurred
before the callback was attached, so the catch-up scan runs first, finds it,
and reports, and every later step is a callback — exactly one comment is
posted.  A terminal event landing between callback attachment and the scan
can yield two comments (see the counterexample). -/
theorem single_report_per_arming :
    (∀ steps : List ListenerStep,
      (∀ f ok, ListenerStep.catchupScan f ok ∈ steps → f = false) →
      (runListener armedListener steps).postedComments ≤ 1) ∧
    (∀ steps : List ListenerStep,
      (∀ x ∈ steps, isCallbackStep x = true) →
      (runListener armedListener
        (ListenerStep.catchupScan true true :: steps)).postedComments = 1) := by
  constructor
  · intro steps h
    exact (runListener_no_found_invariant steps armedListener h
      (fun _ => rfl) (by decide)).2
  · intro steps hcb
    rw [runListener, List.foldl_cons]
    have h1 : stepListener armedListener (ListenerStep.catchupScan true true)
        = ⟨true, 1⟩ := rfl
    rw [h1]
    exact congrArg ListenerState.postedComments
      (runListener_reported_frozen steps ⟨true, 1⟩ hcb rfl)

/-- Witness for `single_report_per_arming`: the pre-attachment race — catch-up
reports, the late terminal callback is suppressed — posts exactly one
comment. -/
theorem single_report_per_arming_witness :
    ((∀ x ∈ ([ListenerStep.callbackEvent (some "finished") true] :
        List ListenerStep), isCallbackStep x = true) ∧
      (runListener armedListener
        [ListenerStep.catchupScan true true,
         ListenerStep.callbackEvent (some "finished") true]).postedComments = 1) :=
  ⟨by decide,
    single_report_per_arming.2 [ListenerStep.callbackEvent (some "finished") true]
      (by decide)⟩

/-- Witness for `unsigned_request_processed`: a concrete unsigned request with
one event is queued. -/
theorem unsigned_request_processed_witness :
    ((none : Option String) = none) ∧
    (asana_webhook ⟨none, none⟩
        ⟨[1, 2, 3], none, none,
          some ⟨[⟨"added", ⟨"g", "story"⟩, none, "T"⟩]⟩⟩
      = (.queuedOk 1, [⟨"added", ⟨"g", "story"⟩, none, "T"⟩])) := by
  refine ⟨rfl, ?_⟩
  exact (unsigned_request_processed ⟨none, none⟩ ⟨some "x", some "y"⟩
      ⟨[1, 2, 3], none, none, some ⟨[⟨"added", ⟨"g", "story"⟩, none, "T"⟩]⟩⟩
      rfl rfl).2.2.2.1 ⟨[⟨"added", ⟨"g", "story"⟩, none, "T"⟩]⟩ rfl (by decide)

end Asana
